/-
Verification of the backup-chain / restore-planning core of the
`mysql_backup_cli` repository (files `mysql_backup_cli/main.py` and
`mysql_backup_cli/cli/app.py`; the two files implement the same logic and
are embedded once below, following `main.py`).

The embedding is shallow: each Python function relevant to the claims is
translated into an executable Lean definition.  Filesystem state touched by
a command (base backup presence, metadata file, chain manifest, incremental
directories, binlog destination directory, binlog index) is made explicit
as a structure, and each command becomes a pure state transformer returning
the new state together with its integer exit status.  External processes
(`xtrabackup`, `mysqlbinlog`, `mysql`) are modelled by their observable
effect: in dry-run mode `sh` only prints and returns 0, in exec mode the
tool's exit code is an input of the model.
-/
import Mathlib

namespace MysqlBackupCli

/-! ### Datetimes

Python `datetime.datetime` values compare field-lexicographically
(year, month, day, hour, minute, second, microsecond).  All datetimes the
program builds are calendar-valid (`month ≤ 12`, `day ≤ 31`, `hour ≤ 23`,
`minute ≤ 59`, `second ≤ 59`, `microsecond ≤ 999999`), and on such values
the lexicographic order coincides with the order of the mixed-radix key
below, which we use as the comparison. -/

structure DateTime where
  year : Nat
  month : Nat
  day : Nat
  hour : Nat
  minute : Nat
  second : Nat
  microsecond : Nat
deriving DecidableEq, Repr

/-- Mixed-radix encoding of a datetime; on calendar-valid datetimes its
order is exactly Python's field-lexicographic datetime order. -/
def DateTime.key (t : DateTime) : Nat :=
  t.microsecond + 1000000 *
    (t.second + 60 * (t.minute + 60 * (t.hour + 24 * (t.day + 32 * (t.month + 13 * t.year)))))

/-- `a <= b` on datetimes. -/
def DateTime.le (a b : DateTime) : Prop := a.key ≤ b.key

/-- `a < b` on datetimes. -/
def DateTime.lt (a b : DateTime) : Prop := a.key < b.key

instance : DecidableRel DateTime.le := fun a b => inferInstanceAs (Decidable (a.key ≤ b.key))

instance : DecidableRel DateTime.lt := fun a b => inferInstanceAs (Decidable (a.key < b.key))

instance : IsTotal DateTime DateTime.le := ⟨fun a b => Nat.le_total a.key b.key⟩

instance : IsTrans DateTime DateTime.le := ⟨fun _ _ _ h h' => Nat.le_trans h h'⟩

/-- `floor_to_minutes` from the source:
```
def floor_to_minutes(t, minutes):
    if minutes <= 0:
        return t
    minute = (t.minute // minutes) * minutes
    return t.replace(minute=minute, second=0, microsecond=0)
```
The granularity is an `Int` since a (mis)configured `pitr_round_minutes`
may be negative. -/
def floor_to_minutes (t : DateTime) (minutes : Int) : DateTime :=
  if minutes ≤ 0 then t
  else
    { t with minute := (t.minute / minutes.toNat) * minutes.toNat, second := 0, microsecond := 0 }

/-- Zero-padded two-digit rendering, as `strftime` does for `%m %d %H %M %S`. -/
def pad2 (n : Nat) : String :=
  if n < 10 then "0" ++ toString n else toString n

/-- `target.strftime("%Y-%m-%d %H:%M:%S")` (years in range have four digits). -/
def DateTime.fmtStop (t : DateTime) : String :=
  toString t.year ++ "-" ++ pad2 t.month ++ "-" ++ pad2 t.day ++ " " ++
    pad2 t.hour ++ ":" ++ pad2 t.minute ++ ":" ++ pad2 t.second

/-- `target.strftime("%Y-%m")`. -/
def DateTime.fmtMonth (t : DateTime) : String :=
  toString t.year ++ "-" ++ pad2 t.month

/-! ### Python string primitives

The Python code compares, strips and splits `str` values.  Python's `str`
order is lexicographic on code points and `str.split()` / `str.strip()`
work on whitespace runs; they are translated here as structural functions
on the character list of a `String` so that every concrete instance is
kernel-computable. -/

/-- Python's whitespace test for `str.strip` / `str.split`:
space, tab, newline, carriage return, vertical tab (11), form feed (12). -/
def pyIsSpace (c : Char) : Bool :=
  c = ' ' || c = '\t' || c = '\n' || c = '\r' || c.toNat = 11 || c.toNat = 12

/-- Python `a <= b` on strings: lexicographic on code points. -/
def strLeB : List Char → List Char → Bool
  | [], _ => true
  | _ :: _, [] => false
  | a :: as, b :: bs =>
    if a.toNat < b.toNat then true
    else if b.toNat < a.toNat then false
    else strLeB as bs

def pyStrLe (a b : String) : Prop := strLeB a.data b.data = true

instance : DecidableRel pyStrLe := fun _ _ => inferInstanceAs (Decidable (_ = true))

theorem strLeB_cons_iff (a b : Char) (as bs : List Char) :
    strLeB (a :: as) (b :: bs) = true ↔
      a.toNat < b.toNat ∨ (a.toNat = b.toNat ∧ strLeB as bs = true) := by
  simp only [strLeB]
  by_cases h1 : a.toNat < b.toNat
  · simp [h1]
  · by_cases h2 : b.toNat < a.toNat
    · simp [h1, h2]; omega
    · have : a.toNat = b.toNat := by omega
      simp [h1, h2, this]

theorem strLeB_total : ∀ as bs, strLeB as bs = true ∨ strLeB bs as = true := by
  intro as
  induction as with
  | nil => intro bs; left; rfl
  | cons a as ih =>
    intro bs
    cases bs with
    | nil => right; rfl
    | cons b bs =>
      rw [strLeB_cons_iff, strLeB_cons_iff]
      rcases Nat.lt_trichotomy a.toNat b.toNat with h | h | h
      · left; left; exact h
      · rcases ih bs with h' | h'
        · left; right; exact ⟨h, h'⟩
        · right; right; exact ⟨h.symm, h'⟩
      · right; left; exact h

theorem strLeB_trans : ∀ as bs cs, strLeB as bs = true → strLeB bs cs = true →
    strLeB as cs = true := by
  intro as
  induction as with
  | nil => intros; rfl
  | cons a as ih =>
    intro bs cs hab hbc
    cases bs with
    | nil => simp [strLeB] at hab
    | cons b bs =>
      cases cs with
      | nil => simp [strLeB] at hbc
      | cons c cs =>
        rw [strLeB_cons_iff] at hab hbc ⊢
        rcases hab with hab | ⟨hab, hab'⟩ <;> rcases hbc with hbc | ⟨hbc, hbc'⟩
        · left; omega
        · left; omega
        · left; omega
        · right; exact ⟨by omega, ih bs cs hab' hbc'⟩

instance : IsTotal String pyStrLe := ⟨fun a b => strLeB_total a.data b.data⟩

instance : IsTrans String pyStrLe := ⟨fun a b c => strLeB_trans a.data b.data c.data⟩

/-- `str.strip()`: drop whitespace from both ends. -/
def pyStrip (s : String) : String :=
  String.mk (((s.data.dropWhile fun c => pyIsSpace c).reverse.dropWhile
      fun c => pyIsSpace c).reverse)

/-- Accumulator-based worker for `pySplitWs`; `acc` holds the current token
reversed. -/
def wsTokensAux : List Char → List Char → List String
  | [], acc => if acc.isEmpty then [] else [String.mk acc.reverse]
  | c :: cs, acc =>
    if pyIsSpace c then
      if acc.isEmpty then wsTokensAux cs []
      else String.mk acc.reverse :: wsTokensAux cs []
    else wsTokensAux cs (c :: acc)

/-! ### The recovery position marker -/

/-- Python's `str.split()` with no argument: split on runs of whitespace,
discarding empty pieces. -/
def pySplitWs (s : String) : List String := wsTokensAux s.data []

/-- Parsed `xtrabackup_binlog_info` content: GTID mode or (file, pos) mode. -/
inductive Marker where
  | gtid (set : String)
  | pos (file : String) (offset : String)
deriving DecidableEq, Repr

/-- `parse_xtrabackup_binlog_info` from the source.  The argument is the
marker file's content, `none` when the file does not exist:
```
def parse_xtrabackup_binlog_info(path):
    if not path.exists():
        return None
    txt = path.read_text("utf-8", errors="ignore").strip()
    if not txt:
        return None
    parts = txt.split()
    if len(parts) >= 3:
        gtid_set = " ".join(parts[2:])
        return {"mode": "gtid", "gtid_set": gtid_set}
    if len(parts) >= 2:
        return {"mode": "pos", "file": parts[0], "pos": parts[1]}
    return None
```
-/
def parse_xtrabackup_binlog_info (content : Option String) : Option Marker :=
  match content with
  | none => none
  | some raw =>
    let txt := pyStrip raw
    if txt = "" then none
    else
      let parts := pySplitWs txt
      if parts.length ≥ 3 then
        some (Marker.gtid (" ".intercalate (parts.drop 2)))
      else if parts.length ≥ 2 then
        some (Marker.pos (parts.headD "") (parts.getD 1 ""))
      else none

/-! ### Command execution

`sh(cmd, exec_)` prints the command; in dry-run mode (`exec_ = False`) it
returns 0 without running anything, in exec mode it returns the external
tool's exit code, which is an input of the model. -/

/-- Exit code observed from `sh`: the tool's code when executing, 0 in dry-run. -/
def shRc (execFlag : Bool) (toolRc : Nat) : Nat :=
  if execFlag then toolRc else 0

/-! ### Chain store: `backup-full` and `backup-incr` -/

inductive BKind where
  | full
  | incr
deriving DecidableEq, Repr

/-- One manifest / metadata record: `{"type": ..., "ts": ..., "series": ...}`. -/
structure BackupMeta where
  kind : BKind
  ts : DateTime
  series : String
deriving DecidableEq, Repr

/-- Persisted per-bucket chain state touched by the backup commands:
whether `series/<ym>/base/raw` exists, the content of `base/meta.json`
(`none` = absent), the manifest array, and the set of incremental
directories `series/<ym>/incr/<ISOZ>/` (represented by their parsed
timestamps; directory names always match the `ISO_Z` pattern). -/
structure ChainState where
  baseRawExists : Bool
  baseMeta : Option BackupMeta
  manifest : List BackupMeta
  incrDirs : List DateTime
deriving DecidableEq, Repr

/-- `cmd_backup_full` from the source.  `now` is the timestamp taken by
`now_utc_iso()`, `toolRc` the exit code `xtrabackup --backup` would return:
```
def cmd_backup_full(cfg, series, exec_):
    ...
    base_raw = lay.base_raw(ym)
    ensure_dir(base_raw)
    rc = sh([xtrabackup, "--backup", ...], exec_=exec_)
    if rc != 0:
        return rc
    meta = {"type": "full", "ts": now_utc_iso(), "series": ym}
    write_json(lay.base_meta(ym), meta)
    mani = read_json(lay.manifest(ym), default=[])
    mani.append(meta)
    write_json(lay.manifest(ym), mani)
    return 0
```
-/
def cmd_backup_full (st : ChainState) (ym : String) (now : DateTime)
    (execFlag : Bool) (toolRc : Nat) : ChainState × Nat :=
  let st1 := { st with baseRawExists := true }
  let rc := shRc execFlag toolRc
  if rc ≠ 0 then (st1, rc)
  else
    let meta : BackupMeta := { kind := BKind.full, ts := now, series := ym }
    ({ st1 with baseMeta := some meta, manifest := st1.manifest ++ [meta] }, 0)

/-- `cmd_backup_incr` from the source:
```
def cmd_backup_incr(cfg, series, exec_):
    ...
    base_raw = lay.base_raw(ym)
    if not base_raw.exists():
        print("Base backup missing ...")
        return 1
    ts = now_utc_iso()
    incr_raw = lay.incr_raw(ym, ts)
    ensure_dir(incr_raw)
    rc = sh([xtrabackup, "--backup", "--incremental", ...], exec_=exec_)
    if rc != 0:
        return rc
    meta = {"type": "incr", "ts": ts, "series": ym}
    mani = read_json(lay.manifest(ym), default=[])
    mani.append(meta)
    write_json(lay.manifest(ym), mani)
    (incr_raw.parent / "meta.json").write_text(...)
    return 0
```
-/
def cmd_backup_incr (st : ChainState) (ym : String) (now : DateTime)
    (execFlag : Bool) (toolRc : Nat) : ChainState × Nat :=
  if st.baseRawExists = false then (st, 1)
  else
    let st1 := { st with incrDirs := st.incrDirs ++ [now] }
    let rc := shRc execFlag toolRc
    if rc ≠ 0 then (st1, rc)
    else
      let meta : BackupMeta := { kind := BKind.incr, ts := now, series := ym }
      ({ st1 with manifest := st1.manifest ++ [meta] }, 0)

/-! ### Log archive index: `ship-binlogs` -/

/-- One entry of `index.json`'s `files` array. -/
structure SegEntry where
  file : String
  size : Nat
  sha256 : String
  first_event_time : String
  last_event_time : String
deriving DecidableEq, Repr

/-- Entry order used by `files.sort(key=lambda x: x.get("file"))`. -/
def segLe (a b : SegEntry) : Prop := pyStrLe a.file b.file

instance : DecidableRel segLe := fun a b => inferInstanceAs (Decidable (pyStrLe a.file b.file))

instance : IsTotal SegEntry segLe := ⟨fun a b => strLeB_total a.file.data b.file.data⟩

instance : IsTrans SegEntry segLe :=
  ⟨fun a b c => strLeB_trans a.file.data b.file.data c.file.data⟩

/-- The per-segment upsert step of `cmd_ship_binlogs`:
```
files = [f for f in index.get("files", []) if f.get("file") != gz_name]
files.append(entry)
files.sort(key=lambda x: x.get("file"))
index["files"] = files
write_json(index_path, index)
```
Python's `list.sort` is a stable sort; `List.insertionSort` is stable too. -/
def upsert (files : List SegEntry) (entry : SegEntry) : List SegEntry :=
  List.insertionSort segLe ((files.filter fun f => f.file ≠ entry.file) ++ [entry])

/-- One source binlog file as `ship-binlogs` observes it: its name, size,
gzip-compressed checksum, filesystem mtime (rendered as an event-time
string) and the event window `mysqlbinlog` decode would yield. -/
structure SrcFile where
  name : String
  size : Nat
  gzSha : String
  mtimeTs : String
  firstEv : String
  lastEv : String
deriving DecidableEq, Repr

/-- `parse_event_window`: in dry-run (or on failure) both bounds fall back
to the file's mtime; in exec mode the decoded window is used. -/
def parse_event_window (execFlag : Bool) (f : SrcFile) : String × String :=
  if execFlag then (f.firstEv, f.lastEv) else (f.mtimeTs, f.mtimeTs)

/-- Persisted state touched by `ship-binlogs` for the destination month:
the `.gz` names present in `binlogs/<ym>/` and the index's `files` array. -/
structure ShipState where
  destGz : List String
  index : List SegEntry
deriving DecidableEq, Repr

/-- The body of `cmd_ship_binlogs`'s per-file loop.  `existing` is the set
of destination `.gz` names captured once before the loop. -/
def shipStep (execFlag : Bool) (existing : List String) (st : ShipState)
    (src : SrcFile) : ShipState :=
  let gzName := src.name ++ ".gz"
  let needCopy := gzName ∉ existing
  let destGz :=
    if needCopy ∧ execFlag = true then st.destGz ++ [gzName] else st.destGz
  let dstExists := gzName ∈ destGz
  let w := parse_event_window execFlag src
  let entry : SegEntry :=
    { file := gzName
      size := src.size
      sha256 := if execFlag = true ∧ dstExists then src.gzSha else ""
      first_event_time := w.1
      last_event_time := w.2 }
  { destGz := destGz, index := upsert st.index entry }

/-- The discovery filter `re.search(r"\.\d+$", p.name)`: a match exists
iff the maximal trailing run of digits is nonempty and is preceded by a
dot (the character before any matched `\d+$` run is a non-digit, so it is
the maximal run). -/
def hasNumericSuffix (s : String) : Bool :=
  let rev := s.data.reverse
  let digits := rev.takeWhile Char.isDigit
  !digits.isEmpty &&
    (match rev.drop digits.length with
     | '.' :: _ => true
     | _ => false)

/-- `cmd_ship_binlogs` from the source (the `flush_first` branch only runs
`mysql -e "FLUSH BINARY LOGS"`, which touches no modelled state; a non-zero
flush exit aborts before the loop, leaving the state unchanged, so it is
omitted).  Source files are discovered sorted by name and filtered by the
`\.\d+$` suffix check. -/
def cmd_ship_binlogs (execFlag : Bool) (srcs : List SrcFile) (st : ShipState) :
    ShipState :=
  let srcFiles :=
    (List.insertionSort (fun a b : SrcFile => pyStrLe a.name b.name) srcs).filter
      fun p => hasNumericSuffix p.name
  let existing := st.destGz
  srcFiles.foldl (shipStep execFlag existing) st

/-! ### Restore: `cmd_restore` -/

/-- Inputs `cmd_restore` reads from disk: presence of
`series/<ym>/base/raw`, the incremental directory names (parsed
timestamps; only names matching the `ISO_Z` regex are ever considered, and
for that fixed-width zero-padded format lexicographic name order equals
timestamp order, so directories are carried as timestamps), the content of
`base/xtrabackup_binlog_info` (`none` = file absent), and the `.gz` names
in the target month's and the following month's binlog directories. -/
structure RestoreState where
  baseRawExists : Bool
  incrDirs : List DateTime
  xbInfo : Option String
  monthGz : List String
  nextMonthGz : List String
deriving DecidableEq, Repr

/-- What the optional PITR stage does. -/
inductive PitrStep where
  /-- `parse_xtrabackup_binlog_info` returned `None`: the command prints
  `xtrabackup_binlog_info not found; cannot do PITR.` and skips replay. -/
  | noMarker
  /-- A replay pipeline `gzip -cd <segments> | mysqlbinlog --stop-datetime
  <stop> [--exclude-gtids <set> | --start-position <pos>] | mysql` is
  printed (and run when executing). -/
  | replay (mode : Marker) (stop : String) (segments : List String)
deriving DecidableEq, Repr

/-- The restore actions `cmd_restore` performs after its checks: seed the
workdir from base, apply the selected incrementals ascending with
`--apply-log-only`, run the final `--prepare`, then the optional PITR
stage.  (`cmd_restore` mutates no modelled persisted state.) -/
structure RestorePlan where
  target : DateTime
  applyOrder : List DateTime
  finalizePrepare : Bool
  needPitr : Bool
  pitr : Option PitrStep
deriving DecidableEq, Repr

/-- Incremental selection of `cmd_restore`:
```
incr_ts = []
if incr_root.exists():
    for d in incr_root.iterdir():
        if d.is_dir() and re.fullmatch(r"\d{4}-\d{2}-\d{2}T\d{2}-\d{2}Z", d.name):
            if dt.datetime.strptime(d.name, ISO_Z) <= target:
                incr_ts.append(d.name)
incr_ts.sort()
```
-/
def selectIncrs (incrDirs : List DateTime) (target : DateTime) : List DateTime :=
  List.insertionSort DateTime.le (incrDirs.filter fun d => DateTime.le d target)

/-- The `need_pitr` decision of `cmd_restore`:
```
need_pitr = True
if incr_ts:
    need_pitr = target > dt.datetime.strptime(incr_ts[-1], ISO_Z)
```
-/
def needPitrOf (sel : List DateTime) (target : DateTime) : Bool :=
  match sel.getLast? with
  | none => true
  | some lastSel => decide (DateTime.lt lastSel target)

instance : DecidableEq (Except Nat RestorePlan) := fun a b =>
  match a, b with
  | Except.error x, Except.error y =>
    match decEq x y with
    | isTrue h => isTrue (by rw [h])
    | isFalse h => isFalse fun hc => h (by cases hc; rfl)
  | Except.error _, Except.ok _ => isFalse fun h => Except.noConfusion h
  | Except.ok _, Except.error _ => isFalse fun h => Except.noConfusion h
  | Except.ok x, Except.ok y =>
    match decEq x y with
    | isTrue h => isTrue (by rw [h])
    | isFalse h => isFalse fun hc => h (by cases hc; rfl)

/-- The plan `cmd_restore` carries out once the base-backup check has
passed: target flooring, incremental selection, `need_pitr`, and the
optional PITR stage (see `cmd_restore` below for the source):
```
target = floor_to_minutes(target, cfg.pitr_round_minutes)
ym = target.strftime("%Y-%m")
base_raw = lay.base_raw(ym)
if not base_raw.exists():
    return 1
copy_tree(base_raw, work, exec_=exec_)
<select incrementals, apply each, final prepare>
need_pitr = ...
if need_pitr:
    info = parse_xtrabackup_binlog_info(lay.base_xb_info(ym))
    if info is None:
        print("xtrabackup_binlog_info not found; cannot do PITR.")
    else:
        stop = target.strftime("%Y-%m-%d %H:%M:%S")
        sources = []
        for d in [month_dir, next_month_dir]:
            if d.exists():
                sources.extend(sorted(d.glob("*.gz")))
        <build and print/run gzip|mysqlbinlog|mysql pipeline>
return 0
```
-/
def restorePlanOf (roundMinutes : Int) (target0 : DateTime) (st : RestoreState) :
    RestorePlan :=
  let target := floor_to_minutes target0 roundMinutes
  let sel := selectIncrs st.incrDirs target
  let needP := needPitrOf sel target
  let pitr : Option PitrStep :=
    if needP then
      match parse_xtrabackup_binlog_info st.xbInfo with
      | none => some PitrStep.noMarker
      | some info =>
        let sources :=
          List.insertionSort pyStrLe st.monthGz ++
            List.insertionSort pyStrLe st.nextMonthGz
        some (PitrStep.replay info target.fmtStop sources)
    else none
  { target := target
    applyOrder := sel
    finalizePrepare := true
    needPitr := needP
    pitr := pitr }

/-- `cmd_restore` from the source.  The `--time` string has already been
parsed into `target0` (or is `utcnow()`), `roundMinutes` is
`cfg.pitr_round_minutes`.  `Except.error 1` models the early `return 1`
when the base backup is missing (printed as `No base backup for series`);
`Except.ok plan` models the run that performs / prints the plan's actions
and then `return 0`. -/
def cmd_restore (roundMinutes : Int) (target0 : DateTime) (st : RestoreState) :
    Except Nat RestorePlan :=
  if st.baseRawExists = false then Except.error 1
  else Except.ok (restorePlanOf roundMinutes target0 st)

/-- Modelled from the spec (the code has no counterpart): the set of
archived log segments whose event-time windows overlap a replay window
ending at `stop`, read off the log-archive index.  A segment's window
`[first_event_time, last_event_time]` overlaps a window ending at `stop`
only if `first_event_time ≤ stop` (event-time strings in the fixed
`YYYY-MM-DD HH:MM:SS` format compare lexicographically, which is
chronological); the window's lower edge is positional (the marker) and
cannot exclude further segments here. -/
def specOverlappingSegments (index : List SegEntry) (stop : String) : List String :=
  (index.filter fun e => pyStrLe e.first_event_time stop).map fun e => e.file

/-! ## Claims -/

/-- C9: flooring to a 15-minute granularity maps 14:37 to 14:30 and 14:45
to 14:45, and for every instant and granularity flooring is idempotent:
applying `floor_to_minutes` twice with the same granularity equals
applying it once. -/
theorem c9_floor_examples_and_idempotent :
    floor_to_minutes ⟨2025, 10, 2, 14, 37, 0, 0⟩ 15 = ⟨2025, 10, 2, 14, 30, 0, 0⟩ ∧
    floor_to_minutes ⟨2025, 10, 2, 14, 45, 0, 0⟩ 15 = ⟨2025, 10, 2, 14, 45, 0, 0⟩ ∧
    ∀ (t : DateTime) (m : Int),
      floor_to_minutes (floor_to_minutes t m) m = floor_to_minutes t m := by
  refine ⟨by decide, by decide, fun t m => ?_⟩
  by_cases h : m ≤ 0
  · simp [floor_to_minutes, h]
  · have hm : 0 < m.toNat := by omega
    simp [floor_to_minutes, h, Nat.mul_div_cancel _ hm]

/-- Witness for C9: idempotence evaluated at 14:37 with 15-minute
granularity. -/
theorem c9_floor_examples_and_idempotent_witness :
    floor_to_minutes (floor_to_minutes ⟨2025, 10, 2, 14, 37, 0, 0⟩ 15) 15 =
      floor_to_minutes ⟨2025, 10, 2, 14, 37, 0, 0⟩ 15 :=
  c9_floor_examples_and_idempotent.2.2 ⟨2025, 10, 2, 14, 37, 0, 0⟩ 15

/-- C8: when the marker content splits into three or more
whitespace-delimited tokens, parsing yields GTID (transaction-id-set) mode
with the set equal to tokens three onward joined by single spaces; when it
splits into exactly two tokens, parsing yields position mode with the
first token as file and the second as offset. -/
theorem c8_marker_token_modes :
    (∀ (raw t1 t2 t3 : String) (rest : List String),
        pySplitWs (pyStrip raw) = t1 :: t2 :: t3 :: rest →
        parse_xtrabackup_binlog_info (some raw) =
          some (Marker.gtid (" ".intercalate (t3 :: rest)))) ∧
    (∀ raw f p : String, pySplitWs (pyStrip raw) = [f, p] →
        parse_xtrabackup_binlog_info (some raw) = some (Marker.pos f p)) := by
  constructor
  · intro raw t1 t2 t3 rest h
    have he : pyStrip raw ≠ "" := by
      intro he
      rw [he] at h
      simp [pySplitWs, wsTokensAux] at h
    simp [parse_xtrabackup_binlog_info, he, h]
  · intro raw f p h
    have he : pyStrip raw ≠ "" := by
      intro he
      rw [he] at h
      simp [pySplitWs, wsTokensAux] at h
    simp [parse_xtrabackup_binlog_info, he, h]

/-- Witness for C8: a four-token marker parses in GTID mode, a two-token
marker in position mode. -/
theorem c8_marker_token_modes_witness :
    parse_xtrabackup_binlog_info (some " mysql-bin.000007  154  a1b2:1-5, a1b2:7 ") =
      some (Marker.gtid "a1b2:1-5, a1b2:7") ∧
    parse_xtrabackup_binlog_info (some "mysql-bin.000005 1240") =
      some (Marker.pos "mysql-bin.000005" "1240") :=
  ⟨c8_marker_token_modes.1 " mysql-bin.000007  154  a1b2:1-5, a1b2:7 "
      "mysql-bin.000007" "154" "a1b2:1-5," ["a1b2:7"] (by decide),
   c8_marker_token_modes.2 "mysql-bin.000005 1240" "mysql-bin.000005" "1240" (by decide)⟩

/-- C10: a marker file that exists but is empty or whitespace-only (its
stripped content is empty), or holds exactly one token, parses to `none`;
the restore flow depends on the marker file only through the parse result,
so any content parsing to `none` is treated exactly like a missing file;
and flooring with a non-positive granularity returns the instant
unchanged. -/
theorem c10_degenerate_marker_and_floor_guard :
    parse_xtrabackup_binlog_info none = none ∧
    (∀ raw : String, pyStrip raw = "" →
        parse_xtrabackup_binlog_info (some raw) = none) ∧
    (∀ raw tk : String, pySplitWs (pyStrip raw) = [tk] →
        parse_xtrabackup_binlog_info (some raw) = none) ∧
    (∀ (roundM : Int) (t0 : DateTime) (st : RestoreState) (c : Option String),
        parse_xtrabackup_binlog_info c = none →
        cmd_restore roundM t0 { st with xbInfo := c } =
          cmd_restore roundM t0 { st with xbInfo := none }) ∧
    (∀ (t : DateTime) (m : Int), m ≤ 0 → floor_to_minutes t m = t) := by
  refine ⟨rfl, ?_, ?_, ?_, ?_⟩
  · intro raw h
    simp [parse_xtrabackup_binlog_info, h]
  · intro raw tk h
    by_cases he : pyStrip raw = ""
    · simp [parse_xtrabackup_binlog_info, he]
    · simp [parse_xtrabackup_binlog_info, he, h]
  · intro roundM t0 st c h
    have h0 : parse_xtrabackup_binlog_info none = none := rfl
    simp [cmd_restore, restorePlanOf, h, h0]
  · intro t m h
    simp [floor_to_minutes, h]

/-- Witness for C10: a whitespace-only marker and a one-token marker parse
to `none`; a restore with a whitespace-only marker file equals the same
restore with the file missing; flooring with granularity 0 is the
identity. -/
theorem c10_degenerate_marker_and_floor_guard_witness :
    parse_xtrabackup_binlog_info (some " \t ") = none ∧
    parse_xtrabackup_binlog_info (some "mysql-bin.000005") = none ∧
    cmd_restore 15 ⟨2025, 10, 2, 14, 30, 0, 0⟩
        ⟨true, [], some " \t ", ["mysql-bin.000001.gz"], []⟩ =
      cmd_restore 15 ⟨2025, 10, 2, 14, 30, 0, 0⟩
        ⟨true, [], none, ["mysql-bin.000001.gz"], []⟩ ∧
    floor_to_minutes ⟨2025, 10, 2, 14, 37, 5, 9⟩ 0 = ⟨2025, 10, 2, 14, 37, 5, 9⟩ :=
  ⟨c10_degenerate_marker_and_floor_guard.2.1 " \t " (by decide),
   c10_degenerate_marker_and_floor_guard.2.2.1 "mysql-bin.000005" "mysql-bin.000005"
     (by decide),
   c10_degenerate_marker_and_floor_guard.2.2.2.1 15 ⟨2025, 10, 2, 14, 30, 0, 0⟩
     ⟨true, [], none, ["mysql-bin.000001.gz"], []⟩ (some " \t ") (by decide),
   c10_degenerate_marker_and_floor_guard.2.2.2.2 ⟨2025, 10, 2, 14, 37, 5, 9⟩ 0
     (by decide)⟩

/-- C2 counterexample: on a bucket whose metadata file is present (a full
record exists), running the full-backup command again does not fail — it
exits 0 — and the chain manifest does not stay unchanged: a second full
record is appended. -/
theorem c2_counterexample :
    (cmd_backup_full
        ⟨true, some ⟨BKind.full, ⟨2025, 10, 1, 3, 0, 0, 0⟩, "2025-10"⟩,
          [⟨BKind.full, ⟨2025, 10, 1, 3, 0, 0, 0⟩, "2025-10"⟩], []⟩
        "2025-10" ⟨2025, 10, 5, 3, 0, 0, 0⟩ true 0).2 = 0 ∧
    (cmd_backup_full
        ⟨true, some ⟨BKind.full, ⟨2025, 10, 1, 3, 0, 0, 0⟩, "2025-10"⟩,
          [⟨BKind.full, ⟨2025, 10, 1, 3, 0, 0, 0⟩, "2025-10"⟩], []⟩
        "2025-10" ⟨2025, 10, 5, 3, 0, 0, 0⟩ true 0).1.manifest ≠
      [⟨BKind.full, ⟨2025, 10, 1, 3, 0, 0, 0⟩, "2025-10"⟩] := by
  decide

/-- C2 amended: re-invoking the full-backup operation on a bucket that
already has a full backup record does not fail with an error: whenever the
tool invocation reports success (always the case in dry-run), the command
exits 0, overwrites the base metadata file with a fresh full record, and
appends that record to the chain manifest as a second full entry. -/
theorem c2_amended_full_backup_rerecords (st : ChainState) (ym : String)
    (now : DateTime) (execFlag : Bool) (toolRc : Nat)
    (_hmeta : st.baseMeta.isSome = true) (hrc : shRc execFlag toolRc = 0) :
    cmd_backup_full st ym now execFlag toolRc =
      ({ st with baseRawExists := true,
                 baseMeta := some ⟨BKind.full, now, ym⟩,
                 manifest := st.manifest ++ [⟨BKind.full, now, ym⟩] }, 0) := by
  simp [cmd_backup_full, hrc]

/-- Witness for the amended C2 at a concrete bucket that already holds a
full record. -/
theorem c2_amended_full_backup_rerecords_witness :
    cmd_backup_full
        ⟨true, some ⟨BKind.full, ⟨2025, 10, 1, 3, 0, 0, 0⟩, "2025-10"⟩,
          [⟨BKind.full, ⟨2025, 10, 1, 3, 0, 0, 0⟩, "2025-10"⟩], []⟩
        "2025-10" ⟨2025, 10, 9, 3, 0, 0, 0⟩ true 0 =
      (⟨true, some ⟨BKind.full, ⟨2025, 10, 9, 3, 0, 0, 0⟩, "2025-10"⟩,
        [⟨BKind.full, ⟨2025, 10, 1, 3, 0, 0, 0⟩, "2025-10"⟩,
         ⟨BKind.full, ⟨2025, 10, 9, 3, 0, 0, 0⟩, "2025-10"⟩], []⟩, 0) :=
  c2_amended_full_backup_rerecords
    ⟨true, some ⟨BKind.full, ⟨2025, 10, 1, 3, 0, 0, 0⟩, "2025-10"⟩,
      [⟨BKind.full, ⟨2025, 10, 1, 3, 0, 0, 0⟩, "2025-10"⟩], []⟩
    "2025-10" ⟨2025, 10, 9, 3, 0, 0, 0⟩ true 0 (by decide) (by decide)

/-- C7 counterexample: after a failed full-backup attempt (tool exit 1 in
exec mode) the bucket has no full backup record — no metadata, empty
manifest — yet the base raw directory exists, so a subsequent incremental
backup succeeds with exit 0 and appends an incremental record to the
manifest of a bucket that has no full record. -/
theorem c7_counterexample :
    (cmd_backup_full ⟨false, none, [], []⟩ "2025-10"
        ⟨2025, 10, 1, 3, 0, 0, 0⟩ true 1).1.baseMeta = none ∧
    (cmd_backup_full ⟨false, none, [], []⟩ "2025-10"
        ⟨2025, 10, 1, 3, 0, 0, 0⟩ true 1).1.manifest = [] ∧
    (cmd_backup_incr
        (cmd_backup_full ⟨false, none, [], []⟩ "2025-10"
          ⟨2025, 10, 1, 3, 0, 0, 0⟩ true 1).1
        "2025-10" ⟨2025, 10, 1, 4, 0, 0, 0⟩ true 0).2 = 0 ∧
    (cmd_backup_incr
        (cmd_backup_full ⟨false, none, [], []⟩ "2025-10"
          ⟨2025, 10, 1, 3, 0, 0, 0⟩ true 1).1
        "2025-10" ⟨2025, 10, 1, 4, 0, 0, 0⟩ true 0).1.manifest =
      [⟨BKind.incr, ⟨2025, 10, 1, 4, 0, 0, 0⟩, "2025-10"⟩] := by
  decide

/-- C7 amended: the incremental-backup operation fails — exit 1, with the
whole bucket state (in particular the chain manifest) left exactly as it
was — precisely when the base raw directory is absent.  Since any
full-backup attempt (even a failed one) creates that directory, the
guarantee of the original claim holds for buckets on which no full backup
was ever attempted. -/
theorem c7_amended_incr_fails_without_base_dir (st : ChainState) (ym : String)
    (now : DateTime) (execFlag : Bool) (toolRc : Nat)
    (h : st.baseRawExists = false) :
    cmd_backup_incr st ym now execFlag toolRc = (st, 1) := by
  simp [cmd_backup_incr, h]

/-- Witness for the amended C7 on a fresh bucket. -/
theorem c7_amended_incr_fails_without_base_dir_witness :
    cmd_backup_incr ⟨false, none, [], []⟩ "2025-10" ⟨2025, 10, 1, 4, 0, 0, 0⟩ true 0 =
      (⟨false, none, [], []⟩, 1) :=
  c7_amended_incr_fails_without_base_dir ⟨false, none, [], []⟩ "2025-10"
    ⟨2025, 10, 1, 4, 0, 0, 0⟩ true 0 (by decide)

/-- C3 counterexample: a restore that needs log replay (no incrementals)
while the recovery marker file is absent does not fail and does not exit
non-zero: the command returns success (`Except.ok`, modelling exit 0) with
the PITR stage merely skipped after printing a diagnostic. -/
theorem c3_counterexample :
    cmd_restore 15 ⟨2025, 10, 2, 14, 30, 0, 0⟩ ⟨true, [], none, [], []⟩ =
      Except.ok ⟨⟨2025, 10, 2, 14, 30, 0, 0⟩, [], true, true, some PitrStep.noMarker⟩ := by
  decide

/-- C3 amended: whenever log replay is needed and the recovery marker is
absent (or unparseable), the restore performs no replay action — the PITR
stage degenerates to printing `xtrabackup_binlog_info not found; cannot do
PITR.` — but the command is not aborted: the physical restore still runs
and the exit status is 0. -/
theorem c3_amended_missing_marker_skips_replay (roundM : Int) (t0 : DateTime)
    (st : RestoreState) (hbase : st.baseRawExists = true)
    (hmark : parse_xtrabackup_binlog_info st.xbInfo = none)
    (hneed : needPitrOf (selectIncrs st.incrDirs (floor_to_minutes t0 roundM))
        (floor_to_minutes t0 roundM) = true) :
    cmd_restore roundM t0 st =
      Except.ok ⟨floor_to_minutes t0 roundM,
        selectIncrs st.incrDirs (floor_to_minutes t0 roundM), true, true,
        some PitrStep.noMarker⟩ := by
  simp [cmd_restore, restorePlanOf, hbase, hmark, hneed]

/-- Witness for the amended C3 with a whitespace-only marker file. -/
theorem c3_amended_missing_marker_skips_replay_witness :
    cmd_restore 15 ⟨2025, 10, 2, 14, 30, 0, 0⟩
        ⟨true, [], some "  ", ["mysql-bin.000001.gz"], []⟩ =
      Except.ok ⟨⟨2025, 10, 2, 14, 30, 0, 0⟩, [], true, true, some PitrStep.noMarker⟩ :=
  c3_amended_missing_marker_skips_replay 15 ⟨2025, 10, 2, 14, 30, 0, 0⟩
    ⟨true, [], some "  ", ["mysql-bin.000001.gz"], []⟩ rfl (by decide) (by decide)

/-- In dry-run mode a shipping step never writes a destination artifact. -/
theorem shipStep_dry_destGz (existing : List String) (st : ShipState) (src : SrcFile) :
    (shipStep false existing st src).destGz = st.destGz := by
  simp [shipStep]

/-- In dry-run mode the whole shipping loop never writes a destination
artifact. -/
theorem foldl_shipStep_dry_destGz (existing : List String) :
    ∀ (srcs : List SrcFile) (st : ShipState),
      (srcs.foldl (shipStep false existing) st).destGz = st.destGz := by
  intro srcs
  induction srcs with
  | nil => intro st; rfl
  | cons s rest ih =>
    intro st
    rw [List.foldl_cons, ih, shipStep_dry_destGz]

/-- C4 counterexample: in dry-run mode (execution flag false) the
full-backup operation does not leave the chain manifest unchanged — it
appends a record even though the (ignored) tool exit code is 7. -/
theorem c4_counterexample :
    (cmd_backup_full ⟨false, none, [], []⟩ "2025-10"
        ⟨2025, 10, 1, 3, 0, 0, 0⟩ false 7).1.manifest ≠ [] := by
  decide

/-- C4 amended: in dry-run mode every external command is replaced by a
printed no-op whose exit code is forced to 0, and no backup or binlog
artifact is copied (the destination `.gz` set is untouched), but the JSON
state writes are not suspended: `backup-full` still writes the base
metadata and appends to the chain manifest, `backup-incr` still appends to
the manifest, and `ship-binlogs` still updates the log-archive index (with
an empty checksum and the mtime fallback window). -/
theorem c4_amended_dry_run_suppresses_tools_not_json :
    (∀ rc : Nat, shRc false rc = 0) ∧
    (∀ (st : ChainState) (ym : String) (now : DateTime) (rc : Nat),
        cmd_backup_full st ym now false rc =
          ({ st with baseRawExists := true,
                     baseMeta := some ⟨BKind.full, now, ym⟩,
                     manifest := st.manifest ++ [⟨BKind.full, now, ym⟩] }, 0)) ∧
    (∀ (st : ChainState) (ym : String) (now : DateTime) (rc : Nat),
        st.baseRawExists = true →
        cmd_backup_incr st ym now false rc =
          ({ st with incrDirs := st.incrDirs ++ [now],
                     manifest := st.manifest ++ [⟨BKind.incr, now, ym⟩] }, 0)) ∧
    (∀ (srcs : List SrcFile) (st : ShipState),
        (cmd_ship_binlogs false srcs st).destGz = st.destGz) ∧
    (cmd_ship_binlogs false
        [⟨"mysql-bin.000001", 5, "abc123", "2025-10-01 10:00:00",
          "2025-10-01 09:00:00", "2025-10-01 09:30:00"⟩] ⟨[], []⟩).index ≠ [] := by
  refine ⟨fun rc => rfl, ?_, ?_, ?_, by decide⟩
  · intro st ym now rc
    simp [cmd_backup_full, shRc]
  · intro st ym now rc h
    simp [cmd_backup_incr, shRc, h]
  · intro srcs st
    simp only [cmd_ship_binlogs]
    exact foldl_shipStep_dry_destGz st.destGz _ st

/-- Witness for the amended C4: a dry-run incremental backup on a bucket
with a base present still appends to the manifest while exiting 0. -/
theorem c4_amended_dry_run_suppresses_tools_not_json_witness :
    cmd_backup_incr
        ⟨true, some ⟨BKind.full, ⟨2025, 10, 1, 3, 0, 0, 0⟩, "2025-10"⟩,
          [⟨BKind.full, ⟨2025, 10, 1, 3, 0, 0, 0⟩, "2025-10"⟩], []⟩
        "2025-10" ⟨2025, 10, 1, 4, 0, 0, 0⟩ false 9 =
      (⟨true, some ⟨BKind.full, ⟨2025, 10, 1, 3, 0, 0, 0⟩, "2025-10"⟩,
        [⟨BKind.full, ⟨2025, 10, 1, 3, 0, 0, 0⟩, "2025-10"⟩,
         ⟨BKind.incr, ⟨2025, 10, 1, 4, 0, 0, 0⟩, "2025-10"⟩],
        [⟨2025, 10, 1, 4, 0, 0, 0⟩]⟩, 0) :=
  c4_amended_dry_run_suppresses_tools_not_json.2.2.1
    ⟨true, some ⟨BKind.full, ⟨2025, 10, 1, 3, 0, 0, 0⟩, "2025-10"⟩,
      [⟨BKind.full, ⟨2025, 10, 1, 3, 0, 0, 0⟩, "2025-10"⟩], []⟩
    "2025-10" ⟨2025, 10, 1, 4, 0, 0, 0⟩ 9 (by decide)

/-- Dropping the unique entry carrying `name` from an index with distinct
filenames shortens it by exactly one. -/
theorem length_filter_ne_file (files : List SegEntry) (name : String)
    (hnodup : (files.map SegEntry.file).Nodup)
    (hmem : name ∈ files.map SegEntry.file) :
    (files.filter fun f => f.file ≠ name).length + 1 = files.length := by
  induction files with
  | nil => simp at hmem
  | cons f rest ih =>
    simp only [List.map_cons, List.nodup_cons] at hnodup
    by_cases hf : f.file = name
    · have hall : ∀ g ∈ rest, g.file ≠ name := by
        intro g hg hgname
        exact hnodup.1 (hf ▸ hgname ▸ List.mem_map_of_mem SegEntry.file hg)
      rw [List.filter_cons]
      have hpred : (decide (f.file ≠ name)) = false := by simp [hf]
      rw [hpred]
      simp only [Bool.false_eq_true, if_false]
      rw [List.filter_eq_self.mpr (by intro g hg; simpa using hall g hg)]
      simp
    · have hmem' : name ∈ rest.map SegEntry.file := by
        rcases List.mem_cons.mp hmem with h | h
        · exact absurd h.symm hf
        · exact h
      rw [List.filter_cons]
      have hpred : (decide (f.file ≠ name)) = true := by simp [hf]
      rw [hpred]
      simp only [if_true]
      have := ih hnodup.2 hmem'
      simp only [List.length_cons]
      omega

/-- C6: upserting an entry whose filename already exists in an index with
unique filenames replaces that entry in place — the result is a
permutation of the old index with the old same-named entry dropped and the
new entry added — so the entry count does not grow, filenames stay unique,
and the index is sorted ascending by filename. -/
theorem c6_upsert_replaces_in_place (files : List SegEntry) (entry : SegEntry)
    (hnodup : (files.map SegEntry.file).Nodup)
    (hmem : entry.file ∈ files.map SegEntry.file) :
    (upsert files entry).length = files.length ∧
    ((upsert files entry).map SegEntry.file).Nodup ∧
    (upsert files entry).Sorted segLe ∧
    (upsert files entry).Perm
      ((files.filter fun f => f.file ≠ entry.file) ++ [entry]) := by
  have hperm : (upsert files entry).Perm
      ((files.filter fun f => f.file ≠ entry.file) ++ [entry]) :=
    List.perm_insertionSort segLe _
  refine ⟨?_, ?_, List.sorted_insertionSort segLe _, hperm⟩
  · rw [hperm.length_eq, List.length_append, List.length_singleton]
    exact length_filter_ne_file files entry.file hnodup hmem
  · refine ((hperm.map SegEntry.file).nodup_iff).mpr ?_
    rw [List.map_append]
    refine List.Nodup.append ?_ (by simp) ?_
    · exact hnodup.sublist ((List.filter_sublist files).map SegEntry.file)
    · intro x hx hx'
      simp only [List.map_cons, List.map_nil, List.mem_singleton] at hx'
      subst hx'
      rcases List.mem_map.mp hx with ⟨g, hg, hgx⟩
      have := List.of_mem_filter hg
      simp only [decide_eq_true_eq] at this
      exact this hgx

/-- Witness for C6 on a two-entry index whose first entry is replaced. -/
theorem c6_upsert_replaces_in_place_witness :
    (upsert
        [⟨"mysql-bin.000001.gz", 5, "oldsha", "2025-10-01 09:00:00", "2025-10-01 09:30:00"⟩,
         ⟨"mysql-bin.000002.gz", 6, "sha2", "2025-10-01 09:30:00", "2025-10-01 10:00:00"⟩]
        ⟨"mysql-bin.000001.gz", 7, "newsha", "2025-10-01 09:00:00", "2025-10-01 09:45:00"⟩).length =
      2 ∧
    ((upsert
        [⟨"mysql-bin.000001.gz", 5, "oldsha", "2025-10-01 09:00:00", "2025-10-01 09:30:00"⟩,
         ⟨"mysql-bin.000002.gz", 6, "sha2", "2025-10-01 09:30:00", "2025-10-01 10:00:00"⟩]
        ⟨"mysql-bin.000001.gz", 7, "newsha", "2025-10-01 09:00:00", "2025-10-01 09:45:00"⟩).map
      SegEntry.file).Nodup ∧
    (upsert
        [⟨"mysql-bin.000001.gz", 5, "oldsha", "2025-10-01 09:00:00", "2025-10-01 09:30:00"⟩,
         ⟨"mysql-bin.000002.gz", 6, "sha2", "2025-10-01 09:30:00", "2025-10-01 10:00:00"⟩]
        ⟨"mysql-bin.000001.gz", 7, "newsha", "2025-10-01 09:00:00", "2025-10-01 09:45:00"⟩).Sorted
      segLe ∧
    (upsert
        [⟨"mysql-bin.000001.gz", 5, "oldsha", "2025-10-01 09:00:00", "2025-10-01 09:30:00"⟩,
         ⟨"mysql-bin.000002.gz", 6, "sha2", "2025-10-01 09:30:00", "2025-10-01 10:00:00"⟩]
        ⟨"mysql-bin.000001.gz", 7, "newsha", "2025-10-01 09:00:00", "2025-10-01 09:45:00"⟩).Perm
      (([⟨"mysql-bin.000001.gz", 5, "oldsha", "2025-10-01 09:00:00", "2025-10-01 09:30:00"⟩,
         ⟨"mysql-bin.000002.gz", 6, "sha2", "2025-10-01 09:30:00", "2025-10-01 10:00:00"⟩].filter
          fun f => f.file ≠ "mysql-bin.000001.gz") ++
        [⟨"mysql-bin.000001.gz", 7, "newsha", "2025-10-01 09:00:00", "2025-10-01 09:45:00"⟩]) :=
  c6_upsert_replaces_in_place
    [⟨"mysql-bin.000001.gz", 5, "oldsha", "2025-10-01 09:00:00", "2025-10-01 09:30:00"⟩,
     ⟨"mysql-bin.000002.gz", 6, "sha2", "2025-10-01 09:30:00", "2025-10-01 10:00:00"⟩]
    ⟨"mysql-bin.000001.gz", 7, "newsha", "2025-10-01 09:00:00", "2025-10-01 09:45:00"⟩
    (by decide) (by decide)

/-- C1: for every restore target and every set of incremental backups, the
restore succeeds (given a base backup) with a plan that (i) applies
exactly the incrementals whose timestamp is at most the floored target —
the apply order is a permutation of that filtered set — (ii) in ascending
timestamp order, and (iii) needs log replay iff no incremental was
selected or the floored target is strictly later than the last selected
incremental's timestamp. -/
theorem c1_restore_selects_incrementals (roundM : Int) (t0 : DateTime)
    (st : RestoreState) (hbase : st.baseRawExists = true) :
    ∃ plan : RestorePlan,
      cmd_restore roundM t0 st = Except.ok plan ∧
      plan.applyOrder.Perm
        (st.incrDirs.filter fun d => DateTime.le d (floor_to_minutes t0 roundM)) ∧
      plan.applyOrder.Sorted DateTime.le ∧
      (plan.needPitr = true ↔
        plan.applyOrder = [] ∨
          ∃ lastSel, plan.applyOrder.getLast? = some lastSel ∧
            DateTime.lt lastSel (floor_to_minutes t0 roundM)) := by
  refine ⟨restorePlanOf roundM t0 st, by simp [cmd_restore, hbase], ?_, ?_, ?_⟩
  · show (restorePlanOf roundM t0 st).applyOrder.Perm _
    simp only [restorePlanOf, selectIncrs]
    exact List.perm_insertionSort DateTime.le _
  · show ((restorePlanOf roundM t0 st).applyOrder).Sorted DateTime.le
    simp only [restorePlanOf, selectIncrs]
    exact List.sorted_insertionSort DateTime.le _
  · show (restorePlanOf roundM t0 st).needPitr = true ↔ _
    have happly : (restorePlanOf roundM t0 st).applyOrder =
        selectIncrs st.incrDirs (floor_to_minutes t0 roundM) := by
      simp only [restorePlanOf]
    have hneed : (restorePlanOf roundM t0 st).needPitr =
        needPitrOf (selectIncrs st.incrDirs (floor_to_minutes t0 roundM))
          (floor_to_minutes t0 roundM) := by
      simp only [restorePlanOf]
    rw [happly, hneed, needPitrOf]
    cases hlast : (selectIncrs st.incrDirs (floor_to_minutes t0 roundM)).getLast? with
    | none =>
      simp only [hlast]
      simp [List.getLast?_eq_none_iff.mp hlast]
    | some l =>
      have hne : selectIncrs st.incrDirs (floor_to_minutes t0 roundM) ≠ [] := by
        intro he
        rw [he] at hlast
        simp at hlast
      simp only [hlast, decide_eq_true_eq]
      constructor
      · intro hlt
        exact Or.inr ⟨l, rfl, hlt⟩
      · rintro (he | ⟨l', hl', hlt⟩)
        · exact absurd he hne
        · cases Option.some.injEq .. ▸ hl' with
          | refl => exact hlt

/-- Witness for C1: incrementals at 13:00 < 14:30 < 15:00 with target
14:37 floored to 14:30 — {13:00, 14:30} are selected ascending, 15:00 is
excluded, and replay is not needed since the target equals the last
selected incremental. -/
theorem c1_restore_selects_incrementals_witness :
    ∃ plan : RestorePlan,
      cmd_restore 15 ⟨2025, 10, 2, 14, 37, 0, 0⟩
          ⟨true, [⟨2025, 10, 2, 15, 0, 0, 0⟩, ⟨2025, 10, 2, 13, 0, 0, 0⟩,
            ⟨2025, 10, 2, 14, 30, 0, 0⟩], none, [], []⟩ =
        Except.ok plan ∧
      plan.applyOrder.Perm
        ([⟨2025, 10, 2, 15, 0, 0, 0⟩, ⟨2025, 10, 2, 13, 0, 0, 0⟩,
          ⟨2025, 10, 2, 14, 30, 0, 0⟩].filter fun d =>
            DateTime.le d (floor_to_minutes ⟨2025, 10, 2, 14, 37, 0, 0⟩ 15)) ∧
      plan.applyOrder.Sorted DateTime.le ∧
      (plan.needPitr = true ↔
        plan.applyOrder = [] ∨
          ∃ lastSel, plan.applyOrder.getLast? = some lastSel ∧
            DateTime.lt lastSel (floor_to_minutes ⟨2025, 10, 2, 14, 37, 0, 0⟩ 15)) :=
  c1_restore_selects_incrementals 15 ⟨2025, 10, 2, 14, 37, 0, 0⟩
    ⟨true, [⟨2025, 10, 2, 15, 0, 0, 0⟩, ⟨2025, 10, 2, 13, 0, 0, 0⟩,
      ⟨2025, 10, 2, 14, 30, 0, 0⟩], none, [], []⟩ rfl

/-- C5 counterexample: a restore needing replay up to 14:30 includes the
archived segment `mysql-bin.000009.gz` in its replay pipeline even though
that segment's indexed event window (14:40–14:45) lies entirely after the
replay window — the plan's segment list is not the set of
window-overlapping segments, which here is empty. -/
theorem c5_counterexample :
    cmd_restore 15 ⟨2025, 10, 2, 14, 30, 0, 0⟩
        ⟨true, [], some "mysql-bin.000005 1240", ["mysql-bin.000009.gz"], []⟩ =
      Except.ok ⟨⟨2025, 10, 2, 14, 30, 0, 0⟩, [], true, true,
        some (PitrStep.replay (Marker.pos "mysql-bin.000005" "1240")
          "2025-10-02 14:30:00" ["mysql-bin.000009.gz"])⟩ ∧
    specOverlappingSegments
        [⟨"mysql-bin.000009.gz", 4096, "s9", "2025-10-02 14:40:00",
          "2025-10-02 14:45:00"⟩]
        "2025-10-02 14:30:00" = [] := by
  decide

/-- C5 amended, exercised on the §8 scenario: the plan's segment list is
every archived `.gz` segment of the target month's (and next month's)
binlog directory sorted by name, independent of the indexed event windows;
replay bounds come from the tool arguments instead — here replay starts at
offset 1240 of `mysql-bin.000005` (position mode) and stops at
`2025-10-02 14:30:00`.  In this scenario, where every archived segment's
window (spanning 14:00–14:45) begins before the stop instant, that list
coincides with the window-overlapping segments. -/
theorem c5_amended_segments_listed_by_month :
    cmd_restore 15 ⟨2025, 10, 2, 14, 30, 0, 0⟩
        ⟨true, [], some "mysql-bin.000005 1240",
          ["mysql-bin.000006.gz", "mysql-bin.000005.gz"], []⟩ =
      Except.ok ⟨⟨2025, 10, 2, 14, 30, 0, 0⟩, [], true, true,
        some (PitrStep.replay (Marker.pos "mysql-bin.000005" "1240")
          "2025-10-02 14:30:00" ["mysql-bin.000005.gz", "mysql-bin.000006.gz"])⟩ ∧
    specOverlappingSegments
        [⟨"mysql-bin.000005.gz", 4096, "s5", "2025-10-02 14:00:00",
          "2025-10-02 14:20:00"⟩,
         ⟨"mysql-bin.000006.gz", 4096, "s6", "2025-10-02 14:20:00",
          "2025-10-02 14:45:00"⟩]
        "2025-10-02 14:30:00" = ["mysql-bin.000005.gz", "mysql-bin.000006.gz"] := by
  decide

end MysqlBackupCli
